import Mathlib

/-!
Shallow embedding of the weather-app client (`src/App.jsx`).

The app is a single React component. We embed:
  * the static WMO condition-code table and the two render-site lookups
    (current conditions and the daily grid), each with its own inline
    fallback (`WMO[code]?.label || ...`);
  * the orchestration state (`query`, `unit`, `place`, `wx`, `loading`,
    `error`) and its initial values;
  * the network-facing helpers `geocodeCity` and `fetchWeather`, with the
    HTTP responses supplied as explicit inputs and the issued requests
    returned as explicit outputs;
  * the three actions `searchCity` (form submit), `useMyLocation`, and the
    unit-change effect (`useEffect [unit]`), each as a pure function from
    prior state and environment responses to (new state, requests issued);
  * the daily forecast grid `daily?.time?.slice(0, 5).map(...)`.

JavaScript floats are modelled as `Rat` (no float arithmetic occurs in the
client other than `Math.round`, modelled by `round`). JS `undefined` from
out-of-range array indexing is modelled with `Option`.
-/

/-- One `{label, emoji}` entry of the `WMO` table. -/
structure ConditionEntry where
  label : String
  emoji : String
deriving DecidableEq, Repr

/-- The static `WMO` condition-code table (App.jsx lines 7–36): a fixed map
from integer weather codes to `{label, emoji}`; absent keys yield `none`
(JS `undefined`). -/
def WMO : Int → Option ConditionEntry
  | 0 => some ⟨"Clear", "☀️"⟩
  | 1 => some ⟨"Mainly clear", "🌤️"⟩
  | 2 => some ⟨"Partly cloudy", "⛅"⟩
  | 3 => some ⟨"Overcast", "☁️"⟩
  | 45 => some ⟨"Fog", "🌫️"⟩
  | 48 => some ⟨"Depositing rime fog", "🌫️"⟩
  | 51 => some ⟨"Light drizzle", "🌦️"⟩
  | 53 => some ⟨"Drizzle", "🌦️"⟩
  | 55 => some ⟨"Heavy drizzle", "🌧️"⟩
  | 56 => some ⟨"Light freezing drizzle", "🌧️"⟩
  | 57 => some ⟨"Freezing drizzle", "🌧️"⟩
  | 61 => some ⟨"Light rain", "🌧️"⟩
  | 63 => some ⟨"Rain", "🌧️"⟩
  | 65 => some ⟨"Heavy rain", "🌧️"⟩
  | 66 => some ⟨"Freezing rain", "🌧️"⟩
  | 67 => some ⟨"Heavy freezing rain", "🌧️"⟩
  | 71 => some ⟨"Light snow", "🌨️"⟩
  | 73 => some ⟨"Snow", "🌨️"⟩
  | 75 => some ⟨"Heavy snow", "❄️"⟩
  | 77 => some ⟨"Snow grains", "❄️"⟩
  | 80 => some ⟨"Light showers", "🌦️"⟩
  | 81 => some ⟨"Showers", "🌦️"⟩
  | 82 => some ⟨"Heavy showers", "🌧️"⟩
  | 85 => some ⟨"Snow showers", "🌨️"⟩
  | 86 => some ⟨"Heavy snow showers", "❄️"⟩
  | 95 => some ⟨"Thunderstorm", "⛈️"⟩
  | 96 => some ⟨"Thunderstorm + hail", "⛈️"⟩
  | 99 => some ⟨"Thunderstorm + heavy hail", "⛈️"⟩
  | _ => none

/-- Condition lookup as used at the daily-grid render site
(`WMO[daily.weather_code[i]]?.label || "—"`,
`WMO[daily.weather_code[i]]?.emoji || "⛅"`, App.jsx lines 206–207).
All table labels/emoji are nonempty strings, so the JS `||` fallback
coincides with `Option.getD`. -/
def describeDaily (code : Int) : ConditionEntry :=
  { label := ((WMO code).map ConditionEntry.label).getD "—"
    emoji := ((WMO code).map ConditionEntry.emoji).getD "⛅" }

/-- Condition lookup as used at the current-conditions render site
(`WMO[current.weather_code]?.emoji || "🌤️"`,
`WMO[current.weather_code]?.label || "Current conditions"`,
App.jsx lines 182 and 185). -/
def describeCurrent (code : Int) : ConditionEntry :=
  { label := ((WMO code).map ConditionEntry.label).getD "Current conditions"
    emoji := ((WMO code).map ConditionEntry.emoji).getD "🌤️" }

/-- The unit state: `"fahrenheit" | "celsius"` (App.jsx line 40). -/
inductive TempUnit
  | fahrenheit
  | celsius
deriving DecidableEq, Repr

/-- Value of the `temperature_unit` request parameter: the unit state string
itself (interpolated directly into the URL, App.jsx line 74). -/
def TempUnit.param : TempUnit → String
  | .fahrenheit => "fahrenheit"
  | .celsius => "celsius"

/-- `speedUnit = unit === "fahrenheit" ? "mph" : "kmh"` (App.jsx line 46). -/
def speedUnit : TempUnit → String
  | .fahrenheit => "mph"
  | .celsius => "kmh"

/-- A resolved place `{ name, country, lat, lon }` (App.jsx line 41). -/
structure Place where
  name : String
  country : String
  lat : Rat
  lon : Rat
deriving DecidableEq, Repr

/-- The `current` object of the forecast response. -/
structure CurrentConditions where
  temperature_2m : Rat
  apparent_temperature : Rat
  relative_humidity_2m : Int
  wind_speed_10m : Rat
  weather_code : Int
  time : String
deriving DecidableEq, Repr

/-- The `daily` object of the forecast response: parallel arrays. -/
structure DailyForecast where
  time : List String
  weather_code : List Int
  temperature_2m_max : List Rat
  temperature_2m_min : List Rat
deriving DecidableEq, Repr

/-- The weather payload passed through from the forecast endpoint. -/
structure WeatherPayload where
  current : CurrentConditions
  daily : DailyForecast
deriving DecidableEq, Repr

/-- The component's orchestration state (App.jsx lines 39–44). `error = ""`
models the absent error (initial `useState("")`; the notice renders only
when `error` is truthy). -/
structure AppState where
  query : String
  unit : TempUnit
  place : Option Place
  wx : Option WeatherPayload
  loading : Bool
  error : String
deriving DecidableEq, Repr

/-- The initial state (App.jsx lines 39–44): `useState("")`,
`useState("fahrenheit")`, `useState(null)`, `useState(null)`,
`useState(false)`, `useState("")`. -/
def initState : AppState :=
  { query := ""
    unit := .fahrenheit
    place := none
    wx := none
    loading := false
    error := "" }

/-- One result object of the geocoding response. -/
structure GeoResult where
  name : String
  country_code : String
  latitude : Rat
  longitude : Rat
deriving DecidableEq, Repr

/-- A geocoding HTTP response: `ok` is `res.ok`; `results` is
`data?.results` (`none` models a missing/null results field). -/
structure GeoResponse where
  ok : Bool
  results : Option (List GeoResult)
deriving DecidableEq, Repr

/-- A forecast HTTP response: non-success status, or a JSON payload. -/
inductive WxResponse
  | httpError
  | ok (w : WeatherPayload)
deriving DecidableEq, Repr

/-- The request sent by `geocodeCity` (App.jsx lines 62–64): the trimmed
name plus the fixed `count=1&language=en` parameters. -/
structure GeoRequest where
  name : String
  count : Nat
  language : String
deriving DecidableEq, Repr

/-- The request sent by `fetchWeather` (App.jsx line 74): coordinates, the
two unit parameters and the fixed `timezone=auto`. -/
structure ForecastRequest where
  latitude : Rat
  longitude : Rat
  temperature_unit : String
  wind_speed_unit : String
  timezone : String
deriving DecidableEq, Repr

/-- A network call issued by an action. -/
inductive Request
  | geo (r : GeoRequest)
  | forecast (r : ForecastRequest)
deriving DecidableEq, Repr

/-- The geocoding request built for a given name. -/
def geoRequestFor (name : String) : GeoRequest :=
  { name := name, count := 1, language := "en" }

/-- The forecast request built by `fetchWeather lat lon` under unit `u`. -/
def forecastRequestFor (lat lon : Rat) (u : TempUnit) : ForecastRequest :=
  { latitude := lat
    longitude := lon
    temperature_unit := u.param
    wind_speed_unit := speedUnit u
    timezone := "auto" }

/-- The error channel of `geocodeCity`. `geocodingFailed` is the
`NetworkError` thrown on non-success status; `notFound` is the
`NotFoundError` thrown on a missing or empty results list. -/
inductive GeoError
  | geocodingFailed
  | notFound
deriving DecidableEq, Repr

/-- The `err.message` carried by each geocoding error (App.jsx lines 66
and 68). -/
def GeoError.message : GeoError → String
  | .geocodingFailed => "Geocoding failed"
  | .notFound => "No results for that city"

/-- `geocodeCity` (App.jsx lines 61–71): throws on `!res.ok`; throws
`"No results for that city"` if `!data?.results?.length`; otherwise returns
the first result mapped to a `Place`. -/
def geocodeCity (resp : GeoResponse) : Except GeoError Place :=
  if resp.ok = false then .error .geocodingFailed
  else
    match resp.results with
    | some (r :: _) =>
        .ok { name := r.name, country := r.country_code
              lat := r.latitude, lon := r.longitude }
    | _ => .error .notFound

/-- `fetchWeather` (App.jsx lines 73–79): throws `"Weather fetch failed"`
on `!res.ok`, otherwise returns the parsed payload. -/
def fetchWeather (resp : WxResponse) : Except String WeatherPayload :=
  match resp with
  | .httpError => .error "Weather fetch failed"
  | .ok w => .ok w

/-- The environment for one action: the response each endpoint would give
to the (at most one) request this action sends it. -/
structure Env where
  geo : GeoResponse
  weather : WxResponse
deriving DecidableEq, Repr

/-- JavaScript `String.prototype.trim`: strips leading and trailing
whitespace. Defined over the character list so it evaluates by kernel
reduction. -/
def jsTrim (s : String) : String :=
  ⟨((s.data.dropWhile Char.isWhitespace).reverse.dropWhile
      Char.isWhitespace).reverse⟩

/-- `searchCity` (App.jsx lines 81–96), the `submitSearch` action, as a pure
function of the prior state and the environment, returning the new state and
the list of network requests issued, in order. Mirrors the source line by
line: `setError("")`; return if `!query.trim()`; `setLoading(true)`;
geocode; `setPlace(p)`; fetch weather; `setWx(w)`; on catch set
`err.message || "Something went wrong"`; finally `setLoading(false)`. -/
def searchCity (s : AppState) (env : Env) : AppState × List Request :=
  let s0 := { s with error := "" }
  if jsTrim s0.query = "" then (s0, [])
  else
    let s1 := { s0 with loading := true }
    let gReq := Request.geo (geoRequestFor (jsTrim s1.query))
    match geocodeCity env.geo with
    | .error e =>
        let msg := if e.message = "" then "Something went wrong" else e.message
        ({ s1 with error := msg, loading := false }, [gReq])
    | .ok p =>
        let s2 := { s1 with place := some p }
        let fReq := Request.forecast (forecastRequestFor p.lat p.lon s2.unit)
        match fetchWeather env.weather with
        | .error m =>
            let msg := if m = "" then "Something went wrong" else m
            ({ s2 with error := msg, loading := false }, [gReq, fReq])
        | .ok w =>
            ({ s2 with wx := some w, loading := false }, [gReq, fReq])

/-- Outcome of the platform geolocation capability for `useMyLocation`:
`unsupported` models `!navigator.geolocation`; `denied msg` models the
error callback with `err.message = msg`; `position lat lon` models the
success callback with `pos.coords`. -/
inductive GeoPosition
  | unsupported
  | denied (msg : String)
  | position (lat lon : Rat)
deriving DecidableEq, Repr

/-- `useMyLocation` (App.jsx lines 98–123) as a pure function: clear error;
if geolocation unsupported set the message and stop; `setLoading(true)`;
on the error callback set `loading=false` and
`err.message || "Location permission denied"`; on success fetch weather,
then `setWx(w)` and only then `setPlace({name:"My location", ...})`; on
catch set `err.message || "Failed to fetch weather"`; finally
`setLoading(false)`. -/
def useMyLocation (s : AppState) (pos : GeoPosition) (env : Env) :
    AppState × List Request :=
  let s0 := { s with error := "" }
  match pos with
  | .unsupported => ({ s0 with error := "Geolocation not supported" }, [])
  | .denied msg =>
      let s1 := { s0 with loading := true }
      let emsg := if msg = "" then "Location permission denied" else msg
      ({ s1 with loading := false, error := emsg }, [])
  | .position lat lon =>
      let s1 := { s0 with loading := true }
      let fReq := Request.forecast (forecastRequestFor lat lon s1.unit)
      match fetchWeather env.weather with
      | .error m =>
          let msg := if m = "" then "Failed to fetch weather" else m
          ({ s1 with error := msg, loading := false }, [fReq])
      | .ok w =>
          ({ s1 with
              wx := some w
              place := some { name := "My location", country := "", lat := lat, lon := lon }
              loading := false }, [fReq])

/-- The `changeUnit` action: `setUnit(u)` followed by the refetch effect
(`useEffect [unit]`, App.jsx lines 126–140). If no place is resolved the
effect returns at once; otherwise it sets `loading=true`, fetches with the
stored coordinates and the new unit, sets `wx` or
`err.message || "Failed to refresh weather"`, and finally
`loading=false`. -/
def changeUnit (s : AppState) (u : TempUnit) (env : Env) :
    AppState × List Request :=
  let s0 := { s with unit := u }
  match s0.place with
  | none => (s0, [])
  | some p =>
      let s1 := { s0 with loading := true }
      let fReq := Request.forecast (forecastRequestFor p.lat p.lon u)
      match fetchWeather env.weather with
      | .error m =>
          let msg := if m = "" then "Failed to refresh weather" else m
          ({ s1 with error := msg, loading := false }, [fReq])
      | .ok w =>
          ({ s1 with wx := some w, loading := false }, [fReq])

/-- One rendered card of the forecast grid (App.jsx lines 204–212).
`tMax`/`tMin` hold the `Math.round`-ed temperatures; `none` models the
`NaN` produced by rounding an out-of-range (`undefined`) array entry. -/
structure DayCell where
  date : String
  emoji : String
  label : String
  tMax : Option Int
  tMin : Option Int
deriving DecidableEq, Repr

/-- The daily forecast grid `daily?.time?.slice(0, 5).map((date, i) => ...)`
(App.jsx lines 203–212). Each card at index `i` reads
`daily.weather_code[i]`, `daily.temperature_2m_max[i]` and
`daily.temperature_2m_min[i]`; out-of-range indexing yields JS `undefined`,
modelled by `Option`. -/
def renderDaily (d : DailyForecast) : List DayCell :=
  (d.time.take 5).mapIdx fun i date =>
    { date := date
      emoji := ((d.weather_code[i]?.bind WMO).map ConditionEntry.emoji).getD "⛅"
      label := ((d.weather_code[i]?.bind WMO).map ConditionEntry.label).getD "—"
      tMax := d.temperature_2m_max[i]?.map round
      tMin := d.temperature_2m_min[i]?.map round }

/-! ## Concrete sample data used by witnesses and counterexamples -/

/-- The geocoding result for the spec's "Orlando" example. -/
def rOrlando : GeoResult :=
  { name := "Orlando", country_code := "US", latitude := 57/2, longitude := -407/5 }

/-- The `Place` produced from `rOrlando` by `geocodeCity`. -/
def pOrlando : Place :=
  { name := "Orlando", country := "US", lat := 57/2, lon := -407/5 }

/-- An unrelated previously-resolved place. -/
def pOld : Place := { name := "Old Town", country := "GB", lat := 1, lon := 2 }

/-- Environment: geocoding succeeds with one result, forecast returns a
non-success status. -/
def envWxFail : Env :=
  { geo := { ok := true, results := some [rOrlando] }, weather := .httpError }

/-- Environment: geocoding succeeds with an empty results list. -/
def envNoResults : Env :=
  { geo := { ok := true, results := some [] }, weather := .httpError }

/-! ## Claims -/

/-- C9: the initial orchestration state is exactly: empty query, unit
Fahrenheit, no place, no payload, not loading, no error (`error = ""`). -/
theorem initState_spec :
    initState.query = "" ∧ initState.unit = TempUnit.fahrenheit ∧
    initState.place = none ∧ initState.wx = none ∧
    initState.loading = false ∧ initState.error = "" :=
  ⟨rfl, rfl, rfl, rfl, rfl, rfl⟩

/-- C5: the condition-code lookup is total over all integer codes: every
code absent from the `WMO` table yields the defined fallback pair at each
render site (label `"—"`, emoji `"⛅"` in the daily grid; label
`"Current conditions"`, emoji `"🌤️"` for current conditions), and every
code present in the table yields exactly that table entry. -/
theorem describe_total (c : Int) :
    (WMO c = none →
      describeDaily c = { label := "—", emoji := "⛅" } ∧
      describeCurrent c = { label := "Current conditions", emoji := "🌤️" }) ∧
    (∀ e, WMO c = some e → describeDaily c = e ∧ describeCurrent c = e) := by
  refine ⟨fun h => ?_, fun e h => ?_⟩
  · simp [describeDaily, describeCurrent, h]
  · simp [describeDaily, describeCurrent, h]

/-- Witness for C5: code 42 is unmapped and yields the daily fallback;
code 0 is mapped and yields its table entry. -/
theorem describe_total_witness :
    describeDaily 42 = { label := "—", emoji := "⛅" } ∧
    describeDaily 0 = { label := "Clear", emoji := "☀️" } :=
  ⟨((describe_total 42).1 rfl).1,
   ((describe_total 0).2 { label := "Clear", emoji := "☀️" } rfl).1⟩

/-- C8: the lookup is pure and deterministic: two calls with the same code
give identical output at both render sites, and each mapped code always
yields its fixed table entry (the table is a constant, never mutated). -/
theorem describe_deterministic (c : Int) :
    describeDaily c = describeDaily c ∧
    describeCurrent c = describeCurrent c ∧
    (∀ e, WMO c = some e → describeDaily c = e ∧ describeCurrent c = e) := by
  refine ⟨rfl, rfl, fun e h => ?_⟩
  simp [describeDaily, describeCurrent, h]

/-- Witness for C8: evaluated at the mapped code 95 ("Thunderstorm"). -/
theorem describe_deterministic_witness :
    describeDaily 95 = { label := "Thunderstorm", emoji := "⛈️" } ∧
    describeCurrent 95 = { label := "Thunderstorm", emoji := "⛈️" } :=
  (describe_deterministic 95).2.2 { label := "Thunderstorm", emoji := "⛈️" } rfl

/-- C6: a geocoding response with `ok` status but an empty results list
makes the search path fail with the `NotFoundError`, whose message is
`"No results for that city"`; after `searchCity` completes, that message is
the displayed error and `loading` is back to `false`. -/
theorem searchCity_empty_results_notFound (s : AppState) (env : Env)
    (hok : env.geo.ok = true) (hres : env.geo.results = some [])
    (hq : jsTrim s.query ≠ "") :
    geocodeCity env.geo = .error GeoError.notFound ∧
    GeoError.message .notFound = "No results for that city" ∧
    (searchCity s env).1.error = "No results for that city" ∧
    (searchCity s env).1.loading = false := by
  have hgeo : geocodeCity env.geo = .error GeoError.notFound := by
    simp [geocodeCity, hok, hres]
  refine ⟨hgeo, rfl, ?_, ?_⟩ <;>
    simp [searchCity, hq, hgeo, GeoError.message]

/-- Witness for C6: a concrete loading state, query `"Orlando"`, and an
empty-results environment. -/
theorem searchCity_empty_results_notFound_witness :
    (searchCity { initState with query := "Orlando" } envNoResults).1.error =
      "No results for that city" ∧
    (searchCity { initState with query := "Orlando" } envNoResults).1.loading =
      false :=
  ⟨(searchCity_empty_results_notFound { initState with query := "Orlando" }
      envNoResults rfl rfl (by decide)).2.2.1,
   (searchCity_empty_results_notFound { initState with query := "Orlando" }
      envNoResults rfl rfl (by decide)).2.2.2⟩

/-- C4: the `changeUnit` action. With no resolved place the refetch effect
does nothing: no request is issued and the state is unchanged apart from
the recorded unit. With a resolved place exactly one forecast request is
issued, carrying the previously resolved coordinates, the new unit's
parameters (`celsius`/`kmh` or `fahrenheit`/`mph`), and no geocoding
request is ever issued. -/
theorem changeUnit_spec (s : AppState) (u : TempUnit) (env : Env) :
    (s.place = none → changeUnit s u env = ({ s with unit := u }, [])) ∧
    (∀ p, s.place = some p →
      (changeUnit s u env).2 =
        [Request.forecast (forecastRequestFor p.lat p.lon u)] ∧
      (forecastRequestFor p.lat p.lon u).latitude = p.lat ∧
      (forecastRequestFor p.lat p.lon u).longitude = p.lon ∧
      (u = .celsius →
        (forecastRequestFor p.lat p.lon u).temperature_unit = "celsius" ∧
        (forecastRequestFor p.lat p.lon u).wind_speed_unit = "kmh") ∧
      (u = .fahrenheit →
        (forecastRequestFor p.lat p.lon u).temperature_unit = "fahrenheit" ∧
        (forecastRequestFor p.lat p.lon u).wind_speed_unit = "mph") ∧
      ∀ g, Request.geo g ∉ (changeUnit s u env).2) := by
  constructor
  · intro h
    simp [changeUnit, h]
  · intro p hp
    have hreqs : (changeUnit s u env).2 =
        [Request.forecast (forecastRequestFor p.lat p.lon u)] := by
      cases hw : env.weather <;> simp [changeUnit, hp, fetchWeather, hw]
    refine ⟨hreqs, rfl, rfl, ?_, ?_, ?_⟩
    · rintro rfl; exact ⟨rfl, rfl⟩
    · rintro rfl; exact ⟨rfl, rfl⟩
    · intro g hg
      rw [hreqs] at hg
      simp at hg

/-- Witness for C4: toggling to Celsius with the resolved Orlando place
issues exactly one forecast request with `celsius`/`kmh` and Orlando's
coordinates. -/
theorem changeUnit_spec_witness :
    (changeUnit { initState with place := some pOrlando } .celsius envWxFail).2 =
      [Request.forecast (forecastRequestFor pOrlando.lat pOrlando.lon .celsius)] ∧
    (forecastRequestFor pOrlando.lat pOrlando.lon .celsius).temperature_unit =
      "celsius" ∧
    (forecastRequestFor pOrlando.lat pOrlando.lon .celsius).wind_speed_unit =
      "kmh" :=
  ⟨((changeUnit_spec { initState with place := some pOrlando } .celsius
      envWxFail).2 pOrlando rfl).1,
   (((changeUnit_spec { initState with place := some pOrlando } .celsius
      envWxFail).2 pOrlando rfl).2.2.2.1 rfl).1,
   (((changeUnit_spec { initState with place := some pOrlando } .celsius
      envWxFail).2 pOrlando rfl).2.2.2.1 rfl).2⟩

/-- C10: in the `useMyLocation` path, `setPlace` runs only after the
weather fetch succeeds (`setWx(w); setPlace(...)` both inside the `try`
after `await fetchWeather`): whenever device coordinates are obtained but
the fetch fails, the prior `place` and `wx` are both left unchanged,
`loading` ends `false`, and the fetch error message is shown. -/
theorem useMyLocation_fetch_failure_preserves (s : AppState) (lat lon : Rat)
    (env : Env) (hw : env.weather = .httpError) :
    (useMyLocation s (.position lat lon) env).1.place = s.place ∧
    (useMyLocation s (.position lat lon) env).1.wx = s.wx ∧
    (useMyLocation s (.position lat lon) env).1.loading = false ∧
    (useMyLocation s (.position lat lon) env).1.error = "Weather fetch failed" := by
  refine ⟨?_, ?_, ?_, ?_⟩ <;> simp [useMyLocation, hw, fetchWeather]

/-- Witness for C10: a prior Old Town place and a failing fetch leave the
place and payload as they were. -/
theorem useMyLocation_fetch_failure_preserves_witness :
    (useMyLocation { initState with place := some pOld } (.position 3 4)
        envWxFail).1.place = some pOld ∧
    (useMyLocation { initState with place := some pOld } (.position 3 4)
        envWxFail).1.wx = none :=
  ⟨(useMyLocation_fetch_failure_preserves { initState with place := some pOld }
      3 4 envWxFail rfl).1,
   (useMyLocation_fetch_failure_preserves { initState with place := some pOld }
      3 4 envWxFail rfl).2.1⟩

/-- C7: the forecast grid renders exactly the first 5 entries of the daily
sequences: it has `min (length) 5` cards (5 when at least 5 days are
returned, all of them when fewer), and the card at each index `i` is built
from index `i` of the four parallel sequences — totally, with no failure
on short sequences. -/
theorem renderDaily_first_five (d : DailyForecast) :
    (renderDaily d).length = min d.time.length 5 ∧
    (5 ≤ d.time.length → (renderDaily d).length = 5) ∧
    (d.time.length < 5 → (renderDaily d).length = d.time.length) ∧
    (∀ i date, i < 5 → d.time[i]? = some date →
      (renderDaily d)[i]? = some
        { date := date
          emoji := ((d.weather_code[i]?.bind WMO).map ConditionEntry.emoji).getD "⛅"
          label := ((d.weather_code[i]?.bind WMO).map ConditionEntry.label).getD "—"
          tMax := d.temperature_2m_max[i]?.map round
          tMin := d.temperature_2m_min[i]?.map round }) := by
  have hlen : (renderDaily d).length = min d.time.length 5 := by
    simp [renderDaily, Nat.min_comm]
  refine ⟨hlen, ?_, ?_, ?_⟩
  · intro h; rw [hlen]; omega
  · intro h; rw [hlen]; omega
  · intro i date hi hdate
    simp [renderDaily, List.getElem?_take_of_lt hi, hdate]

/-- A sample three-day daily payload (codes 0 = Clear, 63 = Rain, 42
unmapped). -/
def dSample : DailyForecast :=
  { time := ["2025-01-01", "2025-01-02", "2025-01-03"]
    weather_code := [0, 63, 42]
    temperature_2m_max := [10, 21/2, -3]
    temperature_2m_min := [1, 2, 3] }

/-- Witness for C7: the three-day sample renders exactly three cards, and
card 1 is built from index 1 of each sequence (`21/2` rounds to `11`). -/
theorem renderDaily_first_five_witness :
    (renderDaily dSample).length = 3 ∧
    (renderDaily dSample)[1]? = some
      { date := "2025-01-02", emoji := "🌧️", label := "Rain",
        tMax := some 11, tMin := some 2 } := by
  have h := renderDaily_first_five dSample
  constructor
  · rw [h.1]; rfl
  · rw [h.2.2.2 1 "2025-01-02" (by decide) rfl]
    have hmax : dSample.temperature_2m_max[1]?.map round = some 11 := by
      show some (round ((21:ℚ)/2)) = some 11
      norm_num [round_eq]
    have hmin : dSample.temperature_2m_min[1]?.map round = some 2 := by
      show some (round ((2:ℚ))) = some 2
      norm_num [round_eq]
    rw [hmax, hmin]
    rfl

/-- A state with a previously resolved place and a pending query. -/
def sPrior : AppState :=
  { query := "Orlando", unit := .fahrenheit, place := some pOld, wx := none,
    loading := false, error := "" }

/-- Counterexample to C1: geocoding succeeds ("Orlando") but the weather
fetch fails. `searchCity` sets the error and ends not loading, yet the
prior place ("Old Town") has been overwritten with the newly geocoded
place, because `setPlace(p)` runs before `fetchWeather` in the `try`
block. -/
theorem searchCity_fetch_failure_overwrites_place_cex :
    (searchCity sPrior envWxFail).1.error = "Weather fetch failed" ∧
    (searchCity sPrior envWxFail).1.loading = false ∧
    ((searchCity sPrior envWxFail).1.place).map Place.name = some "Orlando" ∧
    sPrior.place.map Place.name = some "Old Town" := by
  refine ⟨by decide, by decide, by decide, by decide⟩

/-- C1 (amended): on a failing `submitSearch`, the error message is set and
`loading` returns to `false`; the prior `place` and `payload` are left
unchanged on a geocoding failure or a no-results failure, while on a
weather-fetch failure the payload is unchanged but `place` has already
been replaced by the newly geocoded place. -/
theorem searchCity_failure_spec (s : AppState) (env : Env)
    (hq : jsTrim s.query ≠ "") :
    (geocodeCity env.geo = .error .geocodingFailed →
      (searchCity s env).1 =
        { s with error := "Geocoding failed", loading := false }) ∧
    (geocodeCity env.geo = .error .notFound →
      (searchCity s env).1 =
        { s with error := "No results for that city", loading := false }) ∧
    (∀ p, geocodeCity env.geo = .ok p → env.weather = .httpError →
      (searchCity s env).1 =
        { s with place := some p, error := "Weather fetch failed",
                 loading := false }) := by
  refine ⟨fun hg => ?_, fun hg => ?_, fun p hg hw => ?_⟩ <;>
    simp [searchCity, hq, hg, GeoError.message, fetchWeather, *]

/-- Witness for C1 (amended): the weather-fetch-failure arm evaluated at
the concrete prior state. -/
theorem searchCity_failure_spec_witness :
    (searchCity sPrior envWxFail).1 =
      { sPrior with place := some pOrlando,
                    error := "Weather fetch failed", loading := false } :=
  (searchCity_failure_spec sPrior envWxFail (by decide)).2.2 pOrlando rfl rfl

/-- A state that is already loading. -/
def sBusy : AppState :=
  { query := "Orlando", unit := .fahrenheit, place := none, wx := none,
    loading := true, error := "" }

/-- Counterexample to C2: with `loading = true` and a nonempty query,
`searchCity` is not ignored: it issues network requests and changes state
(there is no `if (loading) return` guard in the source). -/
theorem searchCity_loading_not_ignored_cex :
    sBusy.loading = true ∧
    (searchCity sBusy envWxFail).2 ≠ [] ∧
    (searchCity sBusy envWxFail).1.error ≠ sBusy.error := by
  refine ⟨rfl, by decide, by decide⟩

/-- C2 (amended): `searchCity` has no concurrency guard: its behaviour
does not consult `loading` at all — with a nonempty trimmed query it
behaves exactly as it would from the same state with `loading = false`,
and it does issue network requests. -/
theorem searchCity_no_loading_guard (s : AppState) (env : Env)
    (_hl : s.loading = true) (hq : jsTrim s.query ≠ "") :
    searchCity s env = searchCity { s with loading := false } env ∧
    (searchCity s env).2 ≠ [] := by
  cases hg : geocodeCity env.geo with
  | error e => constructor <;> simp [searchCity, hq, hg]
  | ok p =>
      cases hw : env.weather <;>
        (constructor <;> simp [searchCity, hq, hg, fetchWeather, hw])

/-- Witness for C2 (amended): a concrete loading state with query
`"Paris"`. -/
theorem searchCity_no_loading_guard_witness :
    searchCity { initState with query := "Paris", loading := true }
        envNoResults =
      searchCity
        { { initState with query := "Paris", loading := true } with
            loading := false } envNoResults ∧
    (searchCity { initState with query := "Paris", loading := true }
        envNoResults).2 ≠ [] :=
  searchCity_no_loading_guard
    { initState with query := "Paris", loading := true } envNoResults rfl
    (by decide)

/-- A state with a whitespace-only query and a visible error notice. -/
def sStale : AppState :=
  { query := "   ", unit := .fahrenheit, place := none, wx := none,
    loading := false, error := "No results for that city" }

/-- Counterexample to C3: a whitespace-only query issues no network call,
but the state is not left entirely unchanged: `setError("")` runs before
the emptiness check, so a previously displayed error is cleared. -/
theorem searchCity_empty_query_clears_error_cex :
    (searchCity sStale envWxFail).2 = [] ∧
    (searchCity sStale envWxFail).1 ≠ sStale ∧
    (searchCity sStale envWxFail).1.error = "" ∧
    sStale.error = "No results for that city" := by
  refine ⟨by decide, by decide, by decide, rfl⟩

/-- C3 (amended): on an empty or whitespace-only query, `searchCity`
performs no network call and leaves `query`, `unit`, `place`, `payload`
and `loading` unchanged, but always clears `error` first. -/
theorem searchCity_empty_query_spec (s : AppState) (env : Env)
    (hq : jsTrim s.query = "") :
    searchCity s env = ({ s with error := "" }, []) := by
  simp [searchCity, hq]

/-- Witness for C3 (amended): evaluated at a concrete state with a
single-space query and a stale error. -/
theorem searchCity_empty_query_spec_witness :
    searchCity { initState with query := " ", error := "boom" } envWxFail =
      ({ { initState with query := " ", error := "boom" } with error := "" },
        []) :=
  searchCity_empty_query_spec
    { initState with query := " ", error := "boom" } envWxFail (by decide)
